import Mathlib

/-!
Verification of the T66 golden-reference calibration driver
(`src/tools/mxt_app/gr.c`) against its natural-language specification.

The embedding models the file's constants, the status-byte layout, the
message-poll loop `mxt_gr_get_status`, the command sequencer
`mxt_gr_run_command` and the orchestrator `mxt_store_golden_refs`.

Modelling conventions:
- Machine bytes are `Nat` with explicit bitwise masking; C `int` results are
  `Int` (the code only ever returns 0 or negative values).
- The external transport collaborator (libmaxtouch, not part of this file's
  source) is an `Env` record: `report_id_to_type` becomes `rit`, the results
  of `mxt_write_register` become a stream of `Int`s indexed by write count,
  `mxt_msg_reset` becomes one `Int`, and `get_object_address` becomes an
  `Option Nat` (`none` = `OBJECT_NOT_FOUND`).
- The inbound message queue is a list of drain batches.  One iteration of the
  poll loop drains one batch and then sleeps one second, so elapsed wall-clock
  time (`time(NULL) - start_time`) is modelled as the iteration index.
- A message is its raw byte list (`buf`); a failed `mxt_get_msg_bytes` read
  is a zero-length message, the only failure the code's `if (len > 0)` guard
  can observe since `len` has type `size_t`.
- Register writes are recorded in an ordered trace `(address, byte)` so that
  "no command was written" is a statement about the trace.
-/

set_option maxRecDepth 40000

namespace MxtGr

/-! ### Constants from gr.c -/

def GR_CTRL : Nat := 0

def GR_ENABLE : Nat := 1 <<< 0

def GR_RPTEN : Nat := 1 <<< 1

def GR_FCALCMD_PRIME : Nat := 1 <<< 2

def GR_FCALCMD_GENERATE : Nat := 1 <<< 3

def GR_FCALCMD_STORE : Nat := GR_FCALCMD_PRIME ||| GR_FCALCMD_GENERATE

def GR_FCALCMD_MASK : Nat := GR_FCALCMD_STORE

def GR_STATE_BADSTOREDATA : Nat := 1 <<< 0

def GR_STATE_IDLE : Nat := 0

def GR_STATE_PRIMED : Nat := 1 <<< 1

def GR_STATE_GENERATED : Nat := 1 <<< 2

def GR_STATE_FCALSTATE_MASK : Nat := GR_STATE_PRIMED ||| GR_STATE_GENERATED

def GR_STATE_FCALSEQERR : Nat := 1 <<< 3

def GR_STATE_FCALSEQTO : Nat := 1 <<< 4

def GR_STATE_FCALSEQDONE : Nat := 1 <<< 5

def GR_STATE_FCALPASS : Nat := 1 <<< 6

def GR_STATE_FCALFAIL : Nat := 1 <<< 7

def GR_TIMEOUT : Nat := 30

/-- Object type number of the T66 golden references object. -/
def SPT_GOLDENREFERENCES_T66 : Nat := 66

/-- Object type number of the T6 command processor object. -/
def GEN_COMMANDPROCESSOR_T6 : Nat := 6

/-! ### StatusDecoder

The T66 status byte layout, as tested bit by bit in `mxt_gr_print_state`
and laid out by the `GR_STATE_*` defines. -/

/-- The two-bit fcal phase field of the status byte (bits 1-2).
`mxt_gr_print_state` compares `state & GR_STATE_FCALSTATE_MASK` against
`GR_STATE_IDLE`, `GR_STATE_GENERATED` and `GR_STATE_PRIMED`; the fourth
value (both bits set) matches none of them and is reserved. -/
inductive Phase where
  | idle
  | primed
  | generated
  | reserved
deriving DecidableEq, Repr

/-- Decoded view of a T66 status byte, one field per flag tested by
`mxt_gr_print_state`. -/
structure CalibrationState where
  badStoredData : Bool
  phase : Phase
  sequenceError : Bool
  sequenceTimeout : Bool
  sequenceDone : Bool
  fcalPass : Bool
  fcalFail : Bool
deriving DecidableEq, Repr

/-- The phase field, decoded exactly as `mxt_gr_print_state` tests it. -/
def phaseOf (state : Nat) : Phase :=
  if state &&& GR_STATE_FCALSTATE_MASK = GR_STATE_IDLE then .idle
  else if state &&& GR_STATE_FCALSTATE_MASK = GR_STATE_PRIMED then .primed
  else if state &&& GR_STATE_FCALSTATE_MASK = GR_STATE_GENERATED then .generated
  else .reserved

/-- Decode a raw T66 status byte into its flags, using the masks from the
`GR_STATE_*` defines (the bit tests performed by `mxt_gr_print_state`). -/
def decodeCalibrationState (state : Nat) : CalibrationState :=
  { badStoredData := state &&& GR_STATE_BADSTOREDATA != 0
    phase := phaseOf state
    sequenceError := state &&& GR_STATE_FCALSEQERR != 0
    sequenceTimeout := state &&& GR_STATE_FCALSEQTO != 0
    sequenceDone := state &&& GR_STATE_FCALSEQDONE != 0
    fcalPass := state &&& GR_STATE_FCALPASS != 0
    fcalFail := state &&& GR_STATE_FCALFAIL != 0 }

/-! ### MessagePoller -/

/-- A raw inbound message: the bytes `mxt_get_msg_bytes` places in `buf`.
`buf[0]` is the report id; a failed read delivers zero bytes. -/
abbrev RawMsg := List Nat

/-- One drain: the messages available from the queue during one iteration
of the poll loop (`mxt_get_msg_count` followed by that many reads). -/
abbrev Batch := List RawMsg

/-- Result of `mxt_gr_get_status`: 0 with the first T66 status byte, or
-1 on timeout. -/
inductive PollResult where
  | ok (state : Nat)
  | timeout
deriving DecidableEq, Repr

/-- The inner `for (i = 0; i < count; i++)` drain of one batch: skip
zero-length reads, return `buf[1]` of the first message whose report id
maps to the T66 object, keep scanning past anything else (T6 messages are
only printed). -/
def scanBatch (rit : Nat → Nat) : Batch → Option Nat
  | [] => none
  | msg :: rest =>
    if msg.length > 0 then
      if rit (msg.headD 0) = SPT_GOLDENREFERENCES_T66 then
        some (msg.getD 1 0)
      else
        scanBatch rit rest
    else
      scanBatch rit rest

/-- The `while (true)` loop of `mxt_gr_get_status`.  `i` is the elapsed
time `now - start_time`: the loop sleeps one second after each drain, so
iteration `i` runs at elapsed time `i`.  The loop first checks
`(now - start_time) > timeout_seconds`, then drains the currently queued
messages, then sleeps. -/
def mxt_gr_get_status_loop (rit : Nat → Nat) (timeout : Nat) (i : Nat)
    (bs : List Batch) : PollResult × List Batch :=
  if _h : i > timeout then
    (.timeout, bs)
  else
    match bs with
    | [] => mxt_gr_get_status_loop rit timeout (i + 1) []
    | b :: rest =>
      match scanBatch rit b with
      | some s => (.ok s, rest)
      | none => mxt_gr_get_status_loop rit timeout (i + 1) rest
termination_by timeout + 1 - i
decreasing_by
  all_goals simp_wf
  all_goals omega

/-- `mxt_gr_get_status`: poll from elapsed time 0. -/
def mxt_gr_get_status (rit : Nat → Nat) (timeout : Nat) (bs : List Batch) :
    PollResult × List Batch :=
  mxt_gr_get_status_loop rit timeout 0 bs

/-! ### External collaborator and threaded state -/

/-- The external transport collaborator of gr.c (libmaxtouch), per the
spec's narrow interface: `rit` is `report_id_to_type`; `writeRets n` is the
result of the n-th `mxt_write_register` call; `msgResetRet` the result of
`mxt_msg_reset`; `objAddr` the `get_object_address` result with `none`
standing for `OBJECT_NOT_FOUND`; `initialBatches` the message traffic
available after the reset. -/
structure Env where
  rit : Nat → Nat
  writeRets : Nat → Int
  msgResetRet : Int
  objAddr : Option Nat
  initialBatches : List Batch

/-- State threaded through a calibration run: the not-yet-drained message
batches and the ordered trace of register writes `(address, byte)`. -/
structure St where
  batches : List Batch
  writes : List (Nat × Nat)
deriving DecidableEq, Repr

/-- Initial state of a run, after `mxt_msg_reset`. -/
def initSt (env : Env) : St :=
  { batches := env.initialBatches, writes := [] }

/-! ### CommandSequencer -/

/-- `mxt_gr_run_command`: OR the enable and report-enable bits onto `cmd`,
write the byte to `addr + GR_CTRL` (the write is issued before its result
is examined), poll for a T66 status with the fixed 30-second timeout, then
require the phase field to equal `wanted_fcal_state` and
`actual & wanted_statebit` to be nonzero. -/
def mxt_gr_run_command (env : Env) (addr cmd wanted_fcal_state wanted_statebit : Nat)
    (st : St) : Int × St :=
  let cmd2 := cmd ||| (GR_ENABLE ||| GR_RPTEN)
  let st2 : St := { st with writes := st.writes ++ [(addr + GR_CTRL, cmd2)] }
  let wret := env.writeRets st.writes.length
  if wret < 0 then
    (wret, st2)
  else
    match mxt_gr_get_status env.rit GR_TIMEOUT st2.batches with
    | (.timeout, bs2) => (-1, { st2 with batches := bs2 })
    | (.ok actual, bs2) =>
      if actual &&& GR_STATE_FCALSTATE_MASK = wanted_fcal_state ∧
          actual &&& wanted_statebit ≠ 0 then
        (0, { st2 with batches := bs2 })
      else
        (-1, { st2 with batches := bs2 })

/-! ### Orchestrator -/

/-- `mxt_store_golden_refs`: reset the message queue, resolve the T66
object address, then run Prime, Generate and Store in order, returning the
first failing phase's result. -/
def mxt_store_golden_refs (env : Env) : Int × St :=
  if env.msgResetRet < 0 then
    (env.msgResetRet, initSt env)
  else
    match env.objAddr with
    | none => (-1, initSt env)
    | some addr =>
      let r1 := mxt_gr_run_command env addr GR_FCALCMD_PRIME
        GR_STATE_PRIMED GR_STATE_PRIMED (initSt env)
      if r1.1 < 0 then r1
      else
        let r2 := mxt_gr_run_command env addr GR_FCALCMD_GENERATE
          GR_STATE_GENERATED GR_STATE_FCALPASS r1.2
        if r2.1 < 0 then r2
        else
          let r3 := mxt_gr_run_command env addr GR_FCALCMD_STORE
            GR_STATE_IDLE GR_STATE_FCALSEQDONE r2.2
          if r3.1 < 0 then r3
          else (0, r3.2)

/-! ### Concrete environments used by scenario theorems -/

/-- Report id 1 maps to the T66 object, every other id to the T6 command
processor. -/
def ritC : Nat → Nat :=
  fun r => if r = 1 then SPT_GOLDENREFERENCES_T66 else GEN_COMMANDPROCESSOR_T6

/-- Scenario environment: reset and writes succeed, the object is at
address 640, and the three phases are answered by status bytes `0x02`,
`g`, `0x20` in turn. -/
def envScenario (g : Nat) : Env :=
  { rit := ritC
    writeRets := fun _ => 0
    msgResetRet := 0
    objAddr := some 640
    initialBatches := [[[1, 0x02]], [[1, g]], [[1, 0x20]]] }

/-- Scenario environment where Prime and Generate succeed (status bytes
`0x02` and `0x44`) but the Store command is answered by `0x02`
(phase=Primed, not Idle, and sequenceDone clear), failing the Store
check. -/
def envStoreFail : Env :=
  { rit := ritC
    writeRets := fun _ => 0
    msgResetRet := 0
    objAddr := some 640
    initialBatches := [[[1, 0x02]], [[1, 0x44]], [[1, 0x02]]] }

/-- Every report id maps to the T66 object; used to hand a single chosen
status byte to the sequencer. -/
def ritAll66 : Nat → Nat := fun _ => SPT_GOLDENREFERENCES_T66

/-- Environment whose reads all come from the T66 object and whose writes
succeed. -/
def envAll66 : Env :=
  { rit := ritAll66
    writeRets := fun _ => 0
    msgResetRet := 0
    objAddr := none
    initialBatches := [] }

/-- A threaded state holding exactly one queued T66 message whose status
byte is `s`, over an arbitrary prior write trace. -/
def stDeliver (s : Nat) (w : List (Nat × Nat)) : St :=
  { batches := [[[0, s]]], writes := w }

/-! ### Step lemmas for the poll loop -/

theorem loop_timeout (rit : Nat → Nat) (t i : Nat) (bs : List Batch)
    (h : i > t) : mxt_gr_get_status_loop rit t i bs = (.timeout, bs) := by
  unfold mxt_gr_get_status_loop
  simp [h]

theorem loop_nil (rit : Nat → Nat) (t i : Nat) (h : ¬ i > t) :
    mxt_gr_get_status_loop rit t i [] =
      mxt_gr_get_status_loop rit t (i + 1) [] := by
  conv_lhs => unfold mxt_gr_get_status_loop
  simp [h]

theorem loop_hit (rit : Nat → Nat) (t i s : Nat) (b : Batch)
    (rest : List Batch) (h : ¬ i > t) (hs : scanBatch rit b = some s) :
    mxt_gr_get_status_loop rit t i (b :: rest) = (.ok s, rest) := by
  conv_lhs => unfold mxt_gr_get_status_loop
  simp [h, hs]

theorem loop_miss (rit : Nat → Nat) (t i : Nat) (b : Batch)
    (rest : List Batch) (h : ¬ i > t) (hs : scanBatch rit b = none) :
    mxt_gr_get_status_loop rit t i (b :: rest) =
      mxt_gr_get_status_loop rit t (i + 1) rest := by
  conv_lhs => unfold mxt_gr_get_status_loop
  simp [h, hs]

/-- A batch whose every message is a failed read or maps to an object other
than T66 yields no status byte. -/
theorem scanBatch_none (rit : Nat → Nat) (b : Batch)
    (h : ∀ m ∈ b, m.length = 0 ∨ rit (m.headD 0) ≠ SPT_GOLDENREFERENCES_T66) :
    scanBatch rit b = none := by
  induction b with
  | nil => rfl
  | cons m rest ih =>
    have hm := h m (List.mem_cons_self m rest)
    have hrest : scanBatch rit rest = none :=
      ih fun m2 hm2 => h m2 (List.mem_cons_of_mem m hm2)
    unfold scanBatch
    rcases hm with hlen | hrit
    · simp [hlen, hrest]
    · by_cases hl : m.length > 0
      · simp [hl, List.headD_eq_head? m 0 ▸ hrit, hrest]
      · simp [hl, hrest]

/-- If none of the batches contains a T66 message, the loop drains one
batch per time unit until elapsed time first exceeds the bound, then times
out having consumed exactly `k` batches, where `i + k = t + 1`. -/
theorem loop_none_drop (rit : Nat → Nat) (t : Nat) :
    ∀ k i bs, i + k = t + 1 →
      (∀ b ∈ bs, scanBatch rit b = none) →
      mxt_gr_get_status_loop rit t i bs = (.timeout, bs.drop k) := by
  intro k
  induction k with
  | zero =>
    intro i bs hik _
    have : i > t := by omega
    simpa using loop_timeout rit t i bs this
  | succ k ih =>
    intro i bs hik hall
    have hle : ¬ i > t := by omega
    match bs with
    | [] =>
      rw [loop_nil rit t i hle]
      have := ih (i + 1) [] (by omega) (by simp)
      simpa using this
    | b :: rest =>
      have hb : scanBatch rit b = none := hall b (List.mem_cons_self b rest)
      rw [loop_miss rit t i b rest hle hb]
      have := ih (i + 1) rest (by omega)
        (fun b2 hb2 => hall b2 (List.mem_cons_of_mem b hb2))
      simpa using this

/-! ### Helper lemmas for the command sequencer -/

/-- `mxt_gr_run_command` always appends exactly one write, of the command
byte with the enable and report-enable bits OR-ed in, to the trace —
whatever the write result, the poll outcome, or the state check. -/
theorem run_command_writes (env : Env) (st : St) (addr cmd wf wb : Nat) :
    (mxt_gr_run_command env addr cmd wf wb st).2.writes =
      st.writes ++ [(addr + GR_CTRL, cmd ||| (GR_ENABLE ||| GR_RPTEN))] := by
  unfold mxt_gr_run_command
  dsimp only
  split
  · rfl
  · split
    · rfl
    · split <;> rfl

/-- Bit structure of the outgoing command byte: enable (bit0) and
report-enable (bit1) are set, and the FCALCMD subfield is untouched. -/
theorem or_enable_bits : ∀ c : Fin 256,
    (c.val ||| (GR_ENABLE ||| GR_RPTEN)) &&& GR_ENABLE = GR_ENABLE ∧
    (c.val ||| (GR_ENABLE ||| GR_RPTEN)) &&& GR_RPTEN = GR_RPTEN ∧
    (c.val ||| (GR_ENABLE ||| GR_RPTEN)) &&& GR_FCALCMD_MASK =
      c.val &&& GR_FCALCMD_MASK := by decide

/-- Running a command against a queue holding the single T66 status byte
`s` reduces to the state check of `mxt_gr_run_command`: phase field equal
to `wanted_fcal_state`, and a nonzero intersection with
`wanted_statebit`. -/
theorem run_command_deliver (addr cmd wf wb s : Nat) (w : List (Nat × Nat)) :
    (mxt_gr_run_command envAll66 addr cmd wf wb (stDeliver s w)).1 =
      if s &&& GR_STATE_FCALSTATE_MASK = wf ∧ s &&& wb ≠ 0 then 0 else -1 := by
  have hscan : scanBatch envAll66.rit [[0, s]] = some s := rfl
  have hpoll : mxt_gr_get_status envAll66.rit GR_TIMEOUT [[[0, s]]] =
      (PollResult.ok s, []) := by
    unfold mxt_gr_get_status
    exact loop_hit envAll66.rit GR_TIMEOUT 0 s [[0, s]] []
      (by simp [GR_TIMEOUT]) hscan
  unfold mxt_gr_run_command
  dsimp only [stDeliver]
  rw [hpoll]
  norm_num [envAll66]
  split <;> rfl

/-! ### Claim theorems -/

/-- C2 (confirmed): decoding a calibration status byte is a pure total
function: for every byte 0..255, bit0 is badStoredData, bits 1-2 form the
phase (00=Idle, 01=Primed, 10=Generated, 11=reserved), bit3 is
sequenceError, bit4 is sequenceTimeout, bit5 is sequenceDone, bit6 is
fcalPass, bit7 is fcalFail; the phase is always one of the four values and
re-decoding the same byte yields the same result. -/
theorem C2_decode_total_pure : ∀ b : Fin 256,
    (decodeCalibrationState b.val).badStoredData = b.val.testBit 0 ∧
    ((decodeCalibrationState b.val).phase = Phase.idle ↔
      b.val.testBit 1 = false ∧ b.val.testBit 2 = false) ∧
    ((decodeCalibrationState b.val).phase = Phase.primed ↔
      b.val.testBit 1 = true ∧ b.val.testBit 2 = false) ∧
    ((decodeCalibrationState b.val).phase = Phase.generated ↔
      b.val.testBit 1 = false ∧ b.val.testBit 2 = true) ∧
    ((decodeCalibrationState b.val).phase = Phase.reserved ↔
      b.val.testBit 1 = true ∧ b.val.testBit 2 = true) ∧
    (decodeCalibrationState b.val).sequenceError = b.val.testBit 3 ∧
    (decodeCalibrationState b.val).sequenceTimeout = b.val.testBit 4 ∧
    (decodeCalibrationState b.val).sequenceDone = b.val.testBit 5 ∧
    (decodeCalibrationState b.val).fcalPass = b.val.testBit 6 ∧
    (decodeCalibrationState b.val).fcalFail = b.val.testBit 7 ∧
    ((decodeCalibrationState b.val).phase = Phase.idle ∨
      (decodeCalibrationState b.val).phase = Phase.primed ∨
      (decodeCalibrationState b.val).phase = Phase.generated ∨
      (decodeCalibrationState b.val).phase = Phase.reserved) ∧
    decodeCalibrationState b.val = decodeCalibrationState b.val := by
  decide

/-- C1 (counterexample): in the spec's scenario the Generate answer `0x42`
has its phase bits equal to Primed (bit1), not Generated (bit2), so with
responses `0x02`, `0x42`, `0x20` the Generate phase fails and the overall
procedure returns -1, not success; the Store command (byte 15) is never
written. -/
theorem C1_scenario_counterexample :
    (mxt_store_golden_refs (envScenario 0x42)).1 = -1 ∧
    (mxt_store_golden_refs (envScenario 0x42)).2.writes =
      [(640, 0b0111), (640, 0b1011)] := by
  constructor <;>
    simp +decide [mxt_store_golden_refs, mxt_gr_run_command, mxt_gr_get_status,
      mxt_gr_get_status_loop, scanBatch, envScenario, ritC, initSt,
      SPT_GOLDENREFERENCES_T66, GEN_COMMANDPROCESSOR_T6, GR_TIMEOUT,
      GR_STATE_FCALSTATE_MASK, GR_STATE_PRIMED, GR_STATE_GENERATED,
      GR_STATE_IDLE, GR_STATE_FCALPASS, GR_STATE_FCALSEQDONE,
      GR_FCALCMD_PRIME, GR_FCALCMD_GENERATE, GR_FCALCMD_STORE,
      GR_ENABLE, GR_RPTEN, GR_CTRL]

/-- C1 (amended): the end-to-end success scenario holds with the Generate
answer `0x44` (phase=Generated, fcalPass): Prime writes byte 0b00000111 and
is answered by `0x02`, Generate writes 0b00001011 and is answered by
`0x44`, Store writes 0b00001111 and is answered by `0x20`, and the overall
procedure returns success with exactly those three command writes. -/
theorem C1_scenario_amended :
    (mxt_store_golden_refs (envScenario 0x44)).1 = 0 ∧
    (mxt_store_golden_refs (envScenario 0x44)).2.writes =
      [(640, 0b0111), (640, 0b1011), (640, 0b1111)] := by
  constructor <;>
    simp +decide [mxt_store_golden_refs, mxt_gr_run_command, mxt_gr_get_status,
      mxt_gr_get_status_loop, scanBatch, envScenario, ritC, initSt,
      SPT_GOLDENREFERENCES_T66, GEN_COMMANDPROCESSOR_T6, GR_TIMEOUT,
      GR_STATE_FCALSTATE_MASK, GR_STATE_PRIMED, GR_STATE_GENERATED,
      GR_STATE_IDLE, GR_STATE_FCALPASS, GR_STATE_FCALSEQDONE,
      GR_FCALCMD_PRIME, GR_FCALCMD_GENERATE, GR_FCALCMD_STORE,
      GR_ENABLE, GR_RPTEN, GR_CTRL]

/-- C3 (counterexample): the sequencer's flag check is an any-bit test,
not an all-bits test: with returned state `0x20`, wanted phase Idle and
wanted flag mask `0x60` (sequenceDone|fcalPass), the run succeeds even
though not all bits of the mask are set in the state. -/
theorem C3_mask_counterexample :
    (mxt_gr_run_command envAll66 0 0 GR_STATE_IDLE
      (GR_STATE_FCALSEQDONE ||| GR_STATE_FCALPASS) (stDeliver 0x20 [])).1 = 0 ∧
    0x20 &&& (GR_STATE_FCALSEQDONE ||| GR_STATE_FCALPASS) ≠
      GR_STATE_FCALSEQDONE ||| GR_STATE_FCALPASS := by
  refine ⟨?_, by decide⟩
  rw [run_command_deliver]
  decide

/-- C3 (amended): for every returned state byte, wanted phase and wanted
flag mask, the sequencer succeeds if and only if the state's phase bits
(bits 1-2) equal the wanted phase and AT LEAST ONE bit of the wanted flag
mask is set in the returned state (`state & mask` nonzero); otherwise it
fails with the unexpected-state error -1. -/
theorem C3_mask_amended (addr cmd wf wb s : Nat) (w : List (Nat × Nat)) :
    ((mxt_gr_run_command envAll66 addr cmd wf wb (stDeliver s w)).1 = 0 ↔
      s &&& GR_STATE_FCALSTATE_MASK = wf ∧ s &&& wb ≠ 0) ∧
    ((mxt_gr_run_command envAll66 addr cmd wf wb (stDeliver s w)).1 ≠ 0 →
      (mxt_gr_run_command envAll66 addr cmd wf wb (stDeliver s w)).1 = -1) := by
  rw [run_command_deliver]
  constructor
  · split_ifs with h
    · simpa using h
    · simpa using h
  · split_ifs <;> simp

/-- C4 (confirmed): for every caller-supplied command byte, the byte that
`mxt_gr_run_command` writes to the control register at `addr + GR_CTRL`
has the enable bit (bit0) and the report-enable bit (bit1) set and carries
the caller's FCALCMD subfield bits unchanged; exactly that one write is
appended to the trace. -/
theorem C4_command_byte (env : Env) (st : St) (addr wf wb : Nat) (cmd : Fin 256) :
    (mxt_gr_run_command env addr cmd.val wf wb st).2.writes =
      st.writes ++ [(addr + GR_CTRL, cmd.val ||| (GR_ENABLE ||| GR_RPTEN))] ∧
    (cmd.val ||| (GR_ENABLE ||| GR_RPTEN)) &&& GR_ENABLE = GR_ENABLE ∧
    (cmd.val ||| (GR_ENABLE ||| GR_RPTEN)) &&& GR_RPTEN = GR_RPTEN ∧
    (cmd.val ||| (GR_ENABLE ||| GR_RPTEN)) &&& GR_FCALCMD_MASK =
      cmd.val &&& GR_FCALCMD_MASK :=
  ⟨run_command_writes env st addr cmd.val wf wb, (or_enable_bits cmd).1,
    (or_enable_bits cmd).2.1, (or_enable_bits cmd).2.2⟩

/-- C6 (confirmed): a status byte whose phase bits equal Generated but
with fcalFail set and fcalPass clear fails the Generate step even though
the phase matches: the flag check dominates. -/
theorem C6_generated_fcalfail (addr s : Nat) (w : List (Nat × Nat))
    (_hphase : s &&& GR_STATE_FCALSTATE_MASK = GR_STATE_GENERATED)
    (_hfail : s &&& GR_STATE_FCALFAIL ≠ 0)
    (hpass : s &&& GR_STATE_FCALPASS = 0) :
    (mxt_gr_run_command envAll66 addr GR_FCALCMD_GENERATE GR_STATE_GENERATED
      GR_STATE_FCALPASS (stDeliver s w)).1 = -1 := by
  rw [run_command_deliver]
  simp [hpass]

/-- Witness for C6 at the concrete byte `0x84` (Generated | fcalFail). -/
theorem C6_generated_fcalfail_witness :
    0x84 &&& GR_STATE_FCALSTATE_MASK = GR_STATE_GENERATED ∧
    0x84 &&& GR_STATE_FCALFAIL ≠ 0 ∧
    0x84 &&& GR_STATE_FCALPASS = 0 ∧
    (mxt_gr_run_command envAll66 0 GR_FCALCMD_GENERATE GR_STATE_GENERATED
      GR_STATE_FCALPASS (stDeliver 0x84 [])).1 = -1 :=
  ⟨by decide, by decide, by decide,
    C6_generated_fcalfail 0 0x84 [] (by decide) (by decide) (by decide)⟩

/-- C5 (confirmed): a failing phase terminates the run with that phase's
error and no later-phase command is ever written: a Prime failure leaves
only the Prime command byte in the write trace; a Generate failure after
a successful Prime leaves exactly the Prime and Generate command bytes —
the Store command is never attempted; and a Store failure after
successful Prime and Generate propagates the Store error (the run does
not fall through to success) with exactly the three command bytes
written. -/
theorem C5_phase_failure_short_circuits (env : Env) (addr : Nat)
    (hreset : 0 ≤ env.msgResetRet) (haddr : env.objAddr = some addr) :
    (∀ r1 s1,
      mxt_gr_run_command env addr GR_FCALCMD_PRIME GR_STATE_PRIMED
        GR_STATE_PRIMED (initSt env) = (r1, s1) → r1 < 0 →
      mxt_store_golden_refs env = (r1, s1) ∧
      s1.writes = [(addr + GR_CTRL, GR_FCALCMD_PRIME ||| (GR_ENABLE ||| GR_RPTEN))]) ∧
    (∀ s1 r2 s2,
      mxt_gr_run_command env addr GR_FCALCMD_PRIME GR_STATE_PRIMED
        GR_STATE_PRIMED (initSt env) = (0, s1) →
      mxt_gr_run_command env addr GR_FCALCMD_GENERATE GR_STATE_GENERATED
        GR_STATE_FCALPASS s1 = (r2, s2) → r2 < 0 →
      mxt_store_golden_refs env = (r2, s2) ∧
      s2.writes = [(addr + GR_CTRL, GR_FCALCMD_PRIME ||| (GR_ENABLE ||| GR_RPTEN)),
        (addr + GR_CTRL, GR_FCALCMD_GENERATE ||| (GR_ENABLE ||| GR_RPTEN))]) ∧
    (∀ s1 s2 r3 s3,
      mxt_gr_run_command env addr GR_FCALCMD_PRIME GR_STATE_PRIMED
        GR_STATE_PRIMED (initSt env) = (0, s1) →
      mxt_gr_run_command env addr GR_FCALCMD_GENERATE GR_STATE_GENERATED
        GR_STATE_FCALPASS s1 = (0, s2) →
      mxt_gr_run_command env addr GR_FCALCMD_STORE GR_STATE_IDLE
        GR_STATE_FCALSEQDONE s2 = (r3, s3) → r3 < 0 →
      mxt_store_golden_refs env = (r3, s3) ∧
      s3.writes = [(addr + GR_CTRL, GR_FCALCMD_PRIME ||| (GR_ENABLE ||| GR_RPTEN)),
        (addr + GR_CTRL, GR_FCALCMD_GENERATE ||| (GR_ENABLE ||| GR_RPTEN)),
        (addr + GR_CTRL, GR_FCALCMD_STORE ||| (GR_ENABLE ||| GR_RPTEN))]) := by
  have hnr : ¬ env.msgResetRet < 0 := not_lt.mpr hreset
  refine ⟨?_, ?_, ?_⟩
  · intro r1 s1 h1 hneg
    have hw := run_command_writes env (initSt env) addr GR_FCALCMD_PRIME
      GR_STATE_PRIMED GR_STATE_PRIMED
    rw [h1] at hw
    refine ⟨?_, by simpa [initSt] using hw⟩
    unfold mxt_store_golden_refs
    rw [if_neg hnr, haddr]
    simp only [h1]
    rw [if_pos (show ((r1, s1).1 < 0) from hneg)]
  · intro s1 r2 s2 h1 h2 hneg
    have hw1 := run_command_writes env (initSt env) addr GR_FCALCMD_PRIME
      GR_STATE_PRIMED GR_STATE_PRIMED
    rw [h1] at hw1
    have hw2 := run_command_writes env s1 addr GR_FCALCMD_GENERATE
      GR_STATE_GENERATED GR_STATE_FCALPASS
    rw [h2] at hw2
    have hwrites : s2.writes =
        [(addr + GR_CTRL, GR_FCALCMD_PRIME ||| (GR_ENABLE ||| GR_RPTEN)),
          (addr + GR_CTRL, GR_FCALCMD_GENERATE ||| (GR_ENABLE ||| GR_RPTEN))] := by
      rw [hw2]
      simp [initSt] at hw1
      simp [hw1]
    refine ⟨?_, hwrites⟩
    unfold mxt_store_golden_refs
    rw [if_neg hnr, haddr]
    simp only [h1]
    rw [if_neg (show ¬ (((0 : Int), s1).1 < 0) from lt_irrefl 0)]
    simp only [h2]
    rw [if_pos (show ((r2, s2).1 < 0) from hneg)]
  · intro s1 s2 r3 s3 h1 h2 h3 hneg
    have hw1 := run_command_writes env (initSt env) addr GR_FCALCMD_PRIME
      GR_STATE_PRIMED GR_STATE_PRIMED
    rw [h1] at hw1
    have hw2 := run_command_writes env s1 addr GR_FCALCMD_GENERATE
      GR_STATE_GENERATED GR_STATE_FCALPASS
    rw [h2] at hw2
    have hw3 := run_command_writes env s2 addr GR_FCALCMD_STORE
      GR_STATE_IDLE GR_STATE_FCALSEQDONE
    rw [h3] at hw3
    have hwrites : s3.writes =
        [(addr + GR_CTRL, GR_FCALCMD_PRIME ||| (GR_ENABLE ||| GR_RPTEN)),
          (addr + GR_CTRL, GR_FCALCMD_GENERATE ||| (GR_ENABLE ||| GR_RPTEN)),
          (addr + GR_CTRL, GR_FCALCMD_STORE ||| (GR_ENABLE ||| GR_RPTEN))] := by
      rw [hw3, hw2]
      simp [initSt] at hw1
      simp [hw1]
    refine ⟨?_, hwrites⟩
    unfold mxt_store_golden_refs
    rw [if_neg hnr, haddr]
    simp only [h1]
    rw [if_neg (show ¬ (((0 : Int), s1).1 < 0) from lt_irrefl 0)]
    simp only [h2]
    rw [if_neg (show ¬ (((0 : Int), s2).1 < 0) from lt_irrefl 0)]
    simp only [h3]
    rw [if_pos (show ((r3, s3).1 < 0) from hneg)]

/-- Witness for C5, exercising two failure points.  First the spec's own
failure scenario (Generate answered by `0x42`, whose phase bits read
Primed): Prime succeeds, Generate fails, the run stops with -1 and only
the Prime and Generate command bytes written.  Second a Store failure
(Store answered by `0x02`): Prime and Generate succeed, Store fails, the
run ends with -1 — not success — after exactly the three command
bytes. -/
theorem C5_phase_failure_witness :
    mxt_store_golden_refs (envScenario 0x42) =
      (-1, ⟨[[[1, 0x20]]], [(640, 7), (640, 11)]⟩) ∧
    mxt_store_golden_refs envStoreFail =
      (-1, ⟨[], [(640, 7), (640, 11), (640, 15)]⟩) :=
  ⟨((C5_phase_failure_short_circuits (envScenario 0x42) 640 (by decide) rfl).2.1
    ⟨[[[1, 0x42]], [[1, 0x20]]], [(640, 7)]⟩ (-1) ⟨[[[1, 0x20]]], [(640, 7), (640, 11)]⟩
    (by simp +decide [mxt_gr_run_command, mxt_gr_get_status,
      mxt_gr_get_status_loop, scanBatch, envScenario, ritC, initSt,
      SPT_GOLDENREFERENCES_T66, GEN_COMMANDPROCESSOR_T6, GR_TIMEOUT,
      GR_STATE_FCALSTATE_MASK, GR_STATE_PRIMED, GR_STATE_GENERATED,
      GR_FCALCMD_PRIME, GR_ENABLE, GR_RPTEN, GR_CTRL])
    (by simp +decide [mxt_gr_run_command, mxt_gr_get_status,
      mxt_gr_get_status_loop, scanBatch, envScenario, ritC,
      SPT_GOLDENREFERENCES_T66, GEN_COMMANDPROCESSOR_T6, GR_TIMEOUT,
      GR_STATE_FCALSTATE_MASK, GR_STATE_PRIMED, GR_STATE_GENERATED,
      GR_STATE_FCALPASS, GR_FCALCMD_GENERATE, GR_ENABLE, GR_RPTEN, GR_CTRL])
    (by norm_num)).1,
  ((C5_phase_failure_short_circuits envStoreFail 640 (by decide) rfl).2.2
    ⟨[[[1, 0x44]], [[1, 0x02]]], [(640, 7)]⟩ ⟨[[[1, 0x02]]], [(640, 7), (640, 11)]⟩
    (-1) ⟨[], [(640, 7), (640, 11), (640, 15)]⟩
    (by simp +decide [mxt_gr_run_command, mxt_gr_get_status,
      mxt_gr_get_status_loop, scanBatch, envStoreFail, ritC, initSt,
      SPT_GOLDENREFERENCES_T66, GEN_COMMANDPROCESSOR_T6, GR_TIMEOUT,
      GR_STATE_FCALSTATE_MASK, GR_STATE_PRIMED, GR_STATE_GENERATED,
      GR_FCALCMD_PRIME, GR_ENABLE, GR_RPTEN, GR_CTRL])
    (by simp +decide [mxt_gr_run_command, mxt_gr_get_status,
      mxt_gr_get_status_loop, scanBatch, envStoreFail, ritC,
      SPT_GOLDENREFERENCES_T66, GEN_COMMANDPROCESSOR_T6, GR_TIMEOUT,
      GR_STATE_FCALSTATE_MASK, GR_STATE_PRIMED, GR_STATE_GENERATED,
      GR_STATE_FCALPASS, GR_FCALCMD_GENERATE, GR_ENABLE, GR_RPTEN, GR_CTRL])
    (by simp +decide [mxt_gr_run_command, mxt_gr_get_status,
      mxt_gr_get_status_loop, scanBatch, envStoreFail, ritC,
      SPT_GOLDENREFERENCES_T66, GEN_COMMANDPROCESSOR_T6, GR_TIMEOUT,
      GR_STATE_FCALSTATE_MASK, GR_STATE_PRIMED, GR_STATE_GENERATED,
      GR_STATE_IDLE, GR_STATE_FCALSEQDONE, GR_FCALCMD_STORE,
      GR_ENABLE, GR_RPTEN, GR_CTRL])
    (by norm_num)).1⟩

/-- C7 (confirmed): if every message available during the whole poll
window is a failed read or comes from an object other than T66 (such as
the T6 command processor), the poll reports a timeout; it never returns
success without a calibration-object message. -/
theorem C7_only_t6_times_out (rit : Nat → Nat) (t : Nat) (bs : List Batch)
    (h : ∀ b ∈ bs, ∀ m ∈ b,
      m.length = 0 ∨ rit (m.headD 0) ≠ SPT_GOLDENREFERENCES_T66) :
    (mxt_gr_get_status rit t bs).1 = PollResult.timeout := by
  unfold mxt_gr_get_status
  rw [loop_none_drop rit t (t + 1) 0 bs (by omega)
    (fun b hb => scanBatch_none rit b (h b hb))]

/-- Witness for C7: two batches of T6-only messages time out. -/
theorem C7_only_t6_times_out_witness :
    (∀ b ∈ ([[[9, 5]], [[3, 1, 2]]] : List Batch), ∀ m ∈ b,
      m.length = 0 ∨
        (fun _ => GEN_COMMANDPROCESSOR_T6) (m.headD 0) ≠ SPT_GOLDENREFERENCES_T66) ∧
    (mxt_gr_get_status (fun _ => GEN_COMMANDPROCESSOR_T6) 30
      [[[9, 5]], [[3, 1, 2]]]).1 = PollResult.timeout :=
  ⟨by decide,
    C7_only_t6_times_out (fun _ => GEN_COMMANDPROCESSOR_T6) 30
      [[[9, 5]], [[3, 1, 2]]] (by decide)⟩

/-- C8 (counterexample): a failed message read (zero bytes, the only
failure observable through the code's `if (len > 0)` guard on a `size_t`)
is not propagated to the caller: here the first read of the batch fails
and the poll still returns success 0 with the T66 status from the next
message — there is no transport-error result at all in
`mxt_gr_get_status`. -/
theorem C8_transport_counterexample :
    mxt_gr_get_status ritC 30 [[[], [1, 2]]] = (PollResult.ok 2, []) := by
  simp +decide [mxt_gr_get_status, mxt_gr_get_status_loop, scanBatch, ritC,
    SPT_GOLDENREFERENCES_T66, GR_TIMEOUT]

/-- C8 (amended): a failed message read inside the drain loop is silently
skipped: the poll outcome is exactly the outcome on the same queue without
the failed read, so read failures are never surfaced as a transport error;
the poll still succeeds on a later message or eventually times out. -/
theorem C8_failed_read_skipped (rit : Nat → Nat) (t i : Nat) (b : Batch)
    (rest : List Batch) :
    (mxt_gr_get_status_loop rit t i (([] :: b) :: rest)).1 =
      (mxt_gr_get_status_loop rit t i (b :: rest)).1 := by
  by_cases h : i > t
  · rw [loop_timeout rit t i _ h, loop_timeout rit t i _ h]
  · have hs : scanBatch rit ([] :: b) = scanBatch rit b := rfl
    cases hb : scanBatch rit b with
    | some s =>
      rw [loop_hit rit t i s _ rest h (hs.trans hb),
        loop_hit rit t i s b rest h hb]
    | none =>
      rw [loop_miss rit t i _ rest h (hs.trans hb),
        loop_miss rit t i b rest h hb]

/-- C9 (confirmed): when the T66 object address resolves to not-found the
procedure fails immediately with -1 and the write trace stays empty: no
register write is ever issued in that run. -/
theorem C9_notfound_no_writes (env : Env)
    (hreset : 0 ≤ env.msgResetRet) (haddr : env.objAddr = none) :
    (mxt_store_golden_refs env).1 = -1 ∧
    (mxt_store_golden_refs env).2.writes = [] := by
  have hnr : ¬ env.msgResetRet < 0 := not_lt.mpr hreset
  unfold mxt_store_golden_refs
  rw [if_neg hnr, haddr]
  exact ⟨rfl, rfl⟩

/-- Witness for C9: `envAll66` resolves no object address. -/
theorem C9_notfound_no_writes_witness :
    (mxt_store_golden_refs envAll66).1 = -1 ∧
    (mxt_store_golden_refs envAll66).2.writes = [] :=
  C9_notfound_no_writes envAll66 (by decide) rfl

/-- C10 (confirmed): the elapsed-time check `now - start > timeout` is
strict, so a run that times out has drained the queued messages at each
elapsed time 0..timeout — `timeout + 1` complete drains, at least one even
for timeout 0 — and the timeout is reported only at elapsed time
`timeout + 1`, one time unit beyond the stated bound; consequently with
timeout 0 a queued calibration message is still drained and returned. -/
theorem C10_strict_timeout_drains (rit : Nat → Nat) (t : Nat)
    (bs : List Batch) (b : Batch) (rest : List Batch) (s : Nat)
    (hall : ∀ b2 ∈ bs, ∀ m ∈ b2,
      m.length = 0 ∨ rit (m.headD 0) ≠ SPT_GOLDENREFERENCES_T66)
    (hhit : scanBatch rit b = some s) :
    mxt_gr_get_status rit t bs = (PollResult.timeout, bs.drop (t + 1)) ∧
    mxt_gr_get_status rit 0 (b :: rest) = (PollResult.ok s, rest) := by
  constructor
  · unfold mxt_gr_get_status
    exact loop_none_drop rit t (t + 1) 0 bs (by omega)
      (fun b2 hb2 => scanBatch_none rit b2 (hall b2 hb2))
  · unfold mxt_gr_get_status
    exact loop_hit rit 0 0 s b rest (by omega) hhit

/-- Witness for C10: with timeout 2 and five T6-only batches exactly three
are drained before the timeout; with timeout 0 a queued T66 message is
still returned. -/
theorem C10_strict_timeout_drains_witness :
    mxt_gr_get_status ritC 2 [[[9, 1]], [[9, 1]], [[9, 1]], [[9, 1]], [[9, 1]]] =
      (PollResult.timeout, [[[9, 1]], [[9, 1]]]) ∧
    mxt_gr_get_status ritC 0 [[[1, 7]], [[9, 9]]] = (PollResult.ok 7, [[[9, 9]]]) :=
  C10_strict_timeout_drains ritC 2
    [[[9, 1]], [[9, 1]], [[9, 1]], [[9, 1]], [[9, 1]]]
    [[1, 7]] [[[9, 9]]] 7 (by decide) (by decide)

end MxtGr
